import Mathlib

/-!
Verification of the metrics-calculator and benchmark-classifier core of the
Calculator-App repository (src/src/App.jsx, src/unnamed/part_000).

The computation core is embedded shallowly:
* raw inputs are the four strings held in React state;
* numeric parsing models JavaScript `parseFloat` on the sanitized input
  alphabet (an optional sign, digits, at most one decimal point, with
  longest-prefix semantics; anything else parses to `none`, modelling NaN);
* arithmetic is exact rational arithmetic (`ℚ`);
* `calculateMetrics` is the pure input-to-output content of the React
  callback of the same name (App.jsx lines 125-144): the four `setXxx` calls
  become the four fields of `DerivedMetrics`;
* `getBenchmarkStatus` embeds App.jsx lines 150-171; `getBenchmarkStatusPart000`
  embeds the variant in src/unnamed/part_000 lines 57-74, which additionally
  handles the `"roi"` metric kind.

Severities in the spec correspond to the Tailwind colour classes produced by
the code: good = "text-green-600", warning = "text-yellow-600",
bad = "text-red-600", unknown = "text-gray-500", neutral = "".
-/

/-- The four raw input strings (React state `investmentCost`, `annualNetSales`,
`ebitdaPercentage`, `annualRentCam`). -/
structure RawInputs where
  investmentCost : String
  annualNetSales : String
  ebitdaPercentage : String
  annualRentCam : String

/-- The four derived metrics; `none` models the JavaScript `null` ("N/A"). -/
structure DerivedMetrics where
  salesToInvestmentRatio : Option ℚ
  paybackPeriod : Option ℚ
  roi : Option ℚ
  rentFactor : Option ℚ
deriving DecidableEq

/-- Numeric value of a list of decimal digit characters, most significant first. -/
def digitsToNat (l : List Char) : ℕ :=
  l.foldl (fun acc c => 10 * acc + (c.toNat - 48)) 0

/-- Model of JavaScript `parseFloat` on the app's sanitized input alphabet:
an optional sign, then decimal digits with at most one decimal point, read as
a longest valid prefix; a string with no numeric prefix (in particular the
empty string) yields `none`, modelling NaN.  Exponents, leading whitespace and
the `Infinity` literals accepted by full `parseFloat` are outside the input
invariant (the input fields filter to `/^(\d+(\.\d*)?)?$/`) and are not
modelled. -/
def parseFloat (s : String) : Option ℚ :=
  let cs := s.data
  let signAndRest : ℚ × List Char :=
    match cs with
    | '-' :: t => (-1, t)
    | '+' :: t => (1, t)
    | _ => (1, cs)
  let sign := signAndRest.1
  let rest := signAndRest.2
  let intPart := rest.takeWhile Char.isDigit
  let afterInt := rest.dropWhile Char.isDigit
  let fracPart : List Char :=
    match afterInt with
    | '.' :: t => t.takeWhile Char.isDigit
    | _ => []
  if intPart.isEmpty && fracPart.isEmpty then none
  else
    some (sign * ((digitsToNat intPart : ℚ) +
      (digitsToNat fracPart : ℚ) / (10 : ℚ) ^ fracPart.length))

/-- The pure content of the `calculateMetrics` callback (App.jsx 125-144):
parse the four inputs (`tic`, `pans`, `ebitdaPct = parseFloat(...)/100`,
`arc`); if any parse is NaN, all four metrics become `null`; otherwise each
metric is guarded by its own `> 0` test on its denominator (or, for the
payback period, on the projected annual EBITDA `pae = pans * ebitdaPct`). -/
def calculateMetrics (r : RawInputs) : DerivedMetrics :=
  match parseFloat r.investmentCost, parseFloat r.annualNetSales,
      (parseFloat r.ebitdaPercentage).map (fun q => q / 100),
      parseFloat r.annualRentCam with
  | some tic, some pans, some ebitdaPct, some arc =>
    let pae := pans * ebitdaPct
    { salesToInvestmentRatio := if tic > 0 then some (pans / tic) else none
      paybackPeriod := if pae > 0 then some (tic / pae) else none
      roi := if tic > 0 then some (pae / tic * 100) else none
      rentFactor := if pans > 0 then some (arc / pans * 100) else none }
  | _, _, _, _ =>
    { salesToInvestmentRatio := none
      paybackPeriod := none
      roi := none
      rentFactor := none }

/-- The `paybackPeriod` entry of the benchmark configuration object:
`{ ideal: 5, max: 7 }`. -/
structure PaybackBenchmark where
  ideal : ℚ
  max : ℚ

/-- A value passed as the `benchmark` argument of `getBenchmarkStatus`: in the
JavaScript it is either a number or the `{ideal, max}` object. -/
inductive Benchmark where
  | num (b : ℚ) : Benchmark
  | payback (p : PaybackBenchmark) : Benchmark

/-- The static `benchmarks` configuration object (App.jsx 118-123). -/
structure BenchmarksConfig where
  salesToInvestmentRatio : ℚ
  paybackPeriod : PaybackBenchmark
  roi : ℚ
  rentFactor : ℚ

/-- `benchmarks = { salesToInvestmentRatio: 1.5, paybackPeriod: {ideal: 5,
max: 7}, roi: 20, rentFactor: 10 }`. -/
def benchmarks : BenchmarksConfig :=
  { salesToInvestmentRatio := 1.5
    paybackPeriod := { ideal := 5, max := 7 }
    roi := 20
    rentFactor := 10 }

/-- A `{text, color}` status object returned by the classifier. -/
structure Status where
  text : String
  color : String
deriving DecidableEq

/-- `getBenchmarkStatus` of App.jsx lines 150-171.  `none` models `value ===
null`.  The mismatched type/benchmark combinations reproduce the JavaScript
coercion outcomes: comparing a number with the `{ideal, max}` object coerces
the object to NaN so every `<`/`>` comparison is false, and `benchmark.ideal`
on a plain number is `undefined`, making both payback comparisons false.
There is no `"roi"` case: that kind falls through to the default branch. -/
def getBenchmarkStatus (value : Option ℚ) (benchmark : Benchmark)
    (type : String) : Status :=
  match value with
  | none => { text := "N/A", color := "text-gray-500" }
  | some v =>
    if type = "salesToInvestmentRatio" then
      match benchmark with
      | .num b =>
        if v > b then { text := "Meets Target", color := "text-green-600" }
        else { text := "Below Target", color := "text-red-600" }
      | .payback _ => { text := "Below Target", color := "text-red-600" }
    else if type = "paybackPeriod" then
      match benchmark with
      | .payback p =>
        if v ≤ p.ideal then { text := "Excellent", color := "text-green-600" }
        else if v < p.max then { text := "Good", color := "text-yellow-600" }
        else { text := "High Risk", color := "text-red-600" }
      | .num _ => { text := "High Risk", color := "text-red-600" }
    else if type = "rentFactor" then
      match benchmark with
      | .num b =>
        if v < b then { text := "Meets Target", color := "text-green-600" }
        else { text := "High", color := "text-red-600" }
      | .payback _ => { text := "High", color := "text-red-600" }
    else { text := "", color := "" }

/-- `getBenchmarkStatus` of src/unnamed/part_000 lines 57-74: identical to the
App.jsx version except that it also has a `case 'roi'`, classified like the
sales-to-investment ratio (`value > benchmark`). -/
def getBenchmarkStatusPart000 (value : Option ℚ) (benchmark : Benchmark)
    (type : String) : Status :=
  match value with
  | none => { text := "N/A", color := "text-gray-500" }
  | some v =>
    if type = "salesToInvestmentRatio" then
      match benchmark with
      | .num b =>
        if v > b then { text := "Meets Target", color := "text-green-600" }
        else { text := "Below Target", color := "text-red-600" }
      | .payback _ => { text := "Below Target", color := "text-red-600" }
    else if type = "paybackPeriod" then
      match benchmark with
      | .payback p =>
        if v ≤ p.ideal then { text := "Excellent", color := "text-green-600" }
        else if v < p.max then { text := "Good", color := "text-yellow-600" }
        else { text := "High Risk", color := "text-red-600" }
      | .num _ => { text := "High Risk", color := "text-red-600" }
    else if type = "roi" then
      match benchmark with
      | .num b =>
        if v > b then { text := "Meets Target", color := "text-green-600" }
        else { text := "Below Target", color := "text-red-600" }
      | .payback _ => { text := "Below Target", color := "text-red-600" }
    else if type = "rentFactor" then
      match benchmark with
      | .num b =>
        if v < b then { text := "Meets Target", color := "text-green-600" }
        else { text := "High", color := "text-red-600" }
      | .payback _ => { text := "High", color := "text-red-600" }
    else { text := "", color := "" }

/-- Parsing the worked example's investment cost. -/
theorem parseFloat_500000 : parseFloat "500000" = some 500000 := by
  have h : parseFloat "500000" = some (1 * ((digitsToNat ['5','0','0','0','0','0'] : ℚ) +
      (digitsToNat [] : ℚ) / (10 : ℚ) ^ (0 : ℕ))) := rfl
  have h2 : digitsToNat ['5','0','0','0','0','0'] = 500000 := by decide
  have h3 : digitsToNat [] = 0 := by decide
  rw [h, h2, h3]; norm_num

/-- Parsing the worked example's annual net sales. -/
theorem parseFloat_1500000 : parseFloat "1500000" = some 1500000 := by
  have h : parseFloat "1500000" = some (1 * ((digitsToNat ['1','5','0','0','0','0','0'] : ℚ) +
      (digitsToNat [] : ℚ) / (10 : ℚ) ^ (0 : ℕ))) := rfl
  have h2 : digitsToNat ['1','5','0','0','0','0','0'] = 1500000 := by decide
  have h3 : digitsToNat [] = 0 := by decide
  rw [h, h2, h3]; norm_num

/-- Parsing the worked example's EBITDA percentage. -/
theorem parseFloat_12_5 : parseFloat "12.5" = some (25 / 2) := by
  have h : parseFloat "12.5" = some (1 * ((digitsToNat ['1','2'] : ℚ) +
      (digitsToNat ['5'] : ℚ) / (10 : ℚ) ^ (1 : ℕ))) := rfl
  have h2 : digitsToNat ['1','2'] = 12 := by decide
  have h3 : digitsToNat ['5'] = 5 := by decide
  rw [h, h2, h3]; norm_num

/-- Parsing the worked example's annual rent plus CAM. -/
theorem parseFloat_120000 : parseFloat "120000" = some 120000 := by
  have h : parseFloat "120000" = some (1 * ((digitsToNat ['1','2','0','0','0','0'] : ℚ) +
      (digitsToNat [] : ℚ) / (10 : ℚ) ^ (0 : ℕ))) := rfl
  have h2 : digitsToNat ['1','2','0','0','0','0'] = 120000 := by decide
  have h3 : digitsToNat [] = 0 := by decide
  rw [h, h2, h3]; norm_num

/-- Parsing the string "0". -/
theorem parseFloat_zero : parseFloat "0" = some 0 := by
  have h : parseFloat "0" = some (1 * ((digitsToNat ['0'] : ℚ) +
      (digitsToNat [] : ℚ) / (10 : ℚ) ^ (0 : ℕ))) := rfl
  have h2 : digitsToNat ['0'] = 0 := by decide
  have h3 : digitsToNat [] = 0 := by decide
  rw [h, h2, h3]; norm_num

/-- Parsing a negative investment cost. -/
theorem parseFloat_neg_500000 : parseFloat "-500000" = some (-500000) := by
  have h : parseFloat "-500000" = some ((-1) * ((digitsToNat ['5','0','0','0','0','0'] : ℚ) +
      (digitsToNat [] : ℚ) / (10 : ℚ) ^ (0 : ℕ))) := rfl
  have h2 : digitsToNat ['5','0','0','0','0','0'] = 500000 := by decide
  have h3 : digitsToNat [] = 0 := by decide
  rw [h, h2, h3]; norm_num

/-- The empty string does not parse. -/
theorem parseFloat_empty : parseFloat "" = none := rfl

/-- C1: for every `RawInputs` whose four fields all parse to finite numbers,
`calculateMetrics` returns `projectedAnnualEbitda = annualNetSales *
(ebitdaPercentage / 100)` and the four metrics with their independent guards:
`salesToInvestmentRatio = annualNetSales / investmentCost` when
`investmentCost > 0` and absent otherwise; `paybackPeriod = investmentCost /
projectedAnnualEbitda` when `projectedAnnualEbitda > 0` and absent otherwise;
`roi = (projectedAnnualEbitda / investmentCost) * 100` when `investmentCost >
0` and absent otherwise; `rentFactor = (annualRentCam / annualNetSales) * 100`
when `annualNetSales > 0` and absent otherwise.  Each guard is independent:
the record below fixes every field by its own condition only. -/
theorem c1_metric_formulas (r : RawInputs) (tic pans ebr arc : ℚ)
    (h1 : parseFloat r.investmentCost = some tic)
    (h2 : parseFloat r.annualNetSales = some pans)
    (h3 : parseFloat r.ebitdaPercentage = some ebr)
    (h4 : parseFloat r.annualRentCam = some arc) :
    calculateMetrics r =
      { salesToInvestmentRatio := if tic > 0 then some (pans / tic) else none
        paybackPeriod := if pans * (ebr / 100) > 0 then
          some (tic / (pans * (ebr / 100))) else none
        roi := if tic > 0 then some (pans * (ebr / 100) / tic * 100) else none
        rentFactor := if pans > 0 then some (arc / pans * 100) else none } := by
  simp [calculateMetrics, h1, h2, h3, h4]

/-- Witness for C1 at the spec's worked example: investment cost 500000, net
sales 1500000, EBITDA 12.5%, rent+CAM 120000 give ratio 3, payback 8/3 years,
ROI 37.5% and rent factor 8%. -/
theorem c1_metric_formulas_witness :
    calculateMetrics ⟨"500000", "1500000", "12.5", "120000"⟩ =
      { salesToInvestmentRatio := some 3
        paybackPeriod := some (8 / 3)
        roi := some (75 / 2)
        rentFactor := some 8 } := by
  have h := c1_metric_formulas ⟨"500000", "1500000", "12.5", "120000"⟩
    500000 1500000 (25 / 2) 120000
    parseFloat_500000 parseFloat_1500000 parseFloat_12_5 parseFloat_120000
  rw [h]
  norm_num

/-- C2: for every `RawInputs` in which any of the four fields is empty or
fails to parse as a number, `calculateMetrics` returns all four metrics
absent — the all-or-nothing gate of App.jsx lines 131-137. -/
theorem c2_all_or_nothing_gate (r : RawInputs)
    (h : parseFloat r.investmentCost = none ∨
      parseFloat r.annualNetSales = none ∨
      parseFloat r.ebitdaPercentage = none ∨
      parseFloat r.annualRentCam = none) :
    calculateMetrics r =
      { salesToInvestmentRatio := none, paybackPeriod := none,
        roi := none, rentFactor := none } := by
  rcases hA : parseFloat r.investmentCost with _ | tic <;>
    rcases hB : parseFloat r.annualNetSales with _ | pans <;>
      rcases hC : parseFloat r.ebitdaPercentage with _ | ebr <;>
        rcases hD : parseFloat r.annualRentCam with _ | arc <;>
          simp_all [calculateMetrics]

/-- Witness for C2: an empty investment-cost field (other fields valid) makes
all four metrics absent. -/
theorem c2_all_or_nothing_gate_witness :
    calculateMetrics ⟨"", "1500000", "12.5", "120000"⟩ =
      { salesToInvestmentRatio := none, paybackPeriod := none,
        roi := none, rentFactor := none } :=
  c2_all_or_nothing_gate ⟨"", "1500000", "12.5", "120000"⟩
    (Or.inl parseFloat_empty)

/-- C3: for every present payback-period value `v`, the classifier returns
"Excellent" (good = green) iff `v ≤ 5`, "Good" (warning = yellow) iff
`5 < v < 7`, and "High Risk" (bad = red) iff `v ≥ 7`; in particular `v = 5`
classifies as "Excellent" and `v = 7` as "High Risk". -/
theorem c3_payback_classifier (v : ℚ) :
    (getBenchmarkStatus (some v) (.payback benchmarks.paybackPeriod) "paybackPeriod" =
      { text := "Excellent", color := "text-green-600" } ↔ v ≤ 5) ∧
    (getBenchmarkStatus (some v) (.payback benchmarks.paybackPeriod) "paybackPeriod" =
      { text := "Good", color := "text-yellow-600" } ↔ 5 < v ∧ v < 7) ∧
    (getBenchmarkStatus (some v) (.payback benchmarks.paybackPeriod) "paybackPeriod" =
      { text := "High Risk", color := "text-red-600" } ↔ 7 ≤ v) ∧
    getBenchmarkStatus (some 5) (.payback benchmarks.paybackPeriod) "paybackPeriod" =
      { text := "Excellent", color := "text-green-600" } ∧
    getBenchmarkStatus (some 7) (.payback benchmarks.paybackPeriod) "paybackPeriod" =
      { text := "High Risk", color := "text-red-600" } := by
  simp only [getBenchmarkStatus, benchmarks]
  norm_num
  split_ifs with h1 h2 <;> simp_all
  all_goals linarith

/-- C6: for every present sales-to-investment-ratio value `v`, the classifier
returns ("Meets Target", good = green) iff `v > 1.5` and ("Below Target",
bad = red) iff `v ≤ 1.5`; for every present rent-factor value `v`, it returns
("Meets Target", good) iff `v < 10` and ("High", bad) iff `v ≥ 10`, so a rent
factor of exactly 10 classifies as "High". -/
theorem c6_ratio_and_rent_classifier (v : ℚ) :
    (getBenchmarkStatus (some v) (.num benchmarks.salesToInvestmentRatio)
        "salesToInvestmentRatio" =
      { text := "Meets Target", color := "text-green-600" } ↔ 1.5 < v) ∧
    (getBenchmarkStatus (some v) (.num benchmarks.salesToInvestmentRatio)
        "salesToInvestmentRatio" =
      { text := "Below Target", color := "text-red-600" } ↔ v ≤ 1.5) ∧
    (getBenchmarkStatus (some v) (.num benchmarks.rentFactor) "rentFactor" =
      { text := "Meets Target", color := "text-green-600" } ↔ v < 10) ∧
    (getBenchmarkStatus (some v) (.num benchmarks.rentFactor) "rentFactor" =
      { text := "High", color := "text-red-600" } ↔ 10 ≤ v) ∧
    getBenchmarkStatus (some 10) (.num benchmarks.rentFactor) "rentFactor" =
      { text := "High", color := "text-red-600" } := by
  simp only [getBenchmarkStatus, benchmarks]
  norm_num
  split_ifs with h1 h2 <;> simp_all

/-- C4 counterexample: in the App.jsx classifier there is no `"roi"` case, so
an ROI of 25 (above the benchmark 20) falls through to the default branch and
yields the empty neutral status, not ("Meets Target", good) as the claim
states. -/
theorem c4_roi_counterexample :
    getBenchmarkStatus (some 25) (.num benchmarks.roi) "roi" =
      { text := "", color := "" } ∧
    getBenchmarkStatus (some 25) (.num benchmarks.roi) "roi" ≠
      { text := "Meets Target", color := "text-green-600" } := by
  constructor <;> decide

/-- C4 amended: `calculateMetrics` computes and exposes the ROI, and the
part_000 version of the classifier returns ("Meets Target", good) iff
`v > 20` and ("Below Target", bad) iff `v ≤ 20` for the metric kind "roi";
the App.jsx version of the classifier instead treats "roi" as an unknown
metric kind and returns the empty neutral status for every present value. -/
theorem c4_roi_classifier_amended (v : ℚ) :
    (getBenchmarkStatusPart000 (some v) (.num benchmarks.roi) "roi" =
      { text := "Meets Target", color := "text-green-600" } ↔ 20 < v) ∧
    (getBenchmarkStatusPart000 (some v) (.num benchmarks.roi) "roi" =
      { text := "Below Target", color := "text-red-600" } ↔ v ≤ 20) ∧
    getBenchmarkStatus (some v) (.num benchmarks.roi) "roi" =
      { text := "", color := "" } ∧
    (calculateMetrics ⟨"500000", "1500000", "12.5", "120000"⟩).roi =
      some (75 / 2) := by
  refine ⟨?_, ?_, ?_, ?_⟩
  · simp only [getBenchmarkStatusPart000, benchmarks]
    norm_num
    split_ifs with h <;> simp_all
  · simp only [getBenchmarkStatusPart000, benchmarks]
    norm_num
    split_ifs with h <;> simp_all
  · simp only [getBenchmarkStatus, benchmarks]
    norm_num
    split_ifs <;> simp_all
  · norm_num [calculateMetrics, parseFloat_500000, parseFloat_1500000,
      parseFloat_12_5, parseFloat_120000]

/-- C5 counterexample: with `investmentCost = "0"` and the other inputs valid
and positive, the payback period is not absent — its guard tests the projected
annual EBITDA, not the investment cost, so it is present with value
`0 / pae = 0`, contradicting the claim that it is absent. -/
theorem c5_payback_present_counterexample :
    (calculateMetrics ⟨"0", "1500000", "12.5", "120000"⟩).paybackPeriod =
      some 0 ∧
    (calculateMetrics ⟨"0", "1500000", "12.5", "120000"⟩).paybackPeriod ≠
      none := by
  have h : (calculateMetrics ⟨"0", "1500000", "12.5", "120000"⟩).paybackPeriod =
      some 0 := by
    norm_num [calculateMetrics, parseFloat_zero, parseFloat_1500000,
      parseFloat_12_5, parseFloat_120000]
  exact ⟨h, by simp [h]⟩

/-- C5 amended: when all four fields parse, `investmentCost` parses to 0 and
the other three inputs are positive, `salesToInvestmentRatio` and `roi` are
absent, `rentFactor` is present, and `paybackPeriod` is present with value 0
(its guard tests the projected annual EBITDA, which is positive, and the
numerator is the zero investment cost). -/
theorem c5_zero_investment_amended (r : RawInputs) (pans ebr arc : ℚ)
    (h1 : parseFloat r.investmentCost = some 0)
    (h2 : parseFloat r.annualNetSales = some pans)
    (h3 : parseFloat r.ebitdaPercentage = some ebr)
    (h4 : parseFloat r.annualRentCam = some arc)
    (hpans : 0 < pans) (hebr : 0 < ebr) (_harc : 0 < arc) :
    (calculateMetrics r).salesToInvestmentRatio = none ∧
    (calculateMetrics r).roi = none ∧
    (calculateMetrics r).paybackPeriod = some 0 ∧
    (calculateMetrics r).rentFactor = some (arc / pans * 100) := by
  have hpae : 0 < pans * (ebr / 100) := by positivity
  simp [calculateMetrics, h1, h2, h3, h4, hpans, hpae]

/-- Witness for the amended C5 at a concrete input: zero investment cost with
the worked example's other inputs. -/
theorem c5_zero_investment_amended_witness :
    (calculateMetrics ⟨"0", "1500000", "12.5", "120000"⟩).salesToInvestmentRatio =
      none ∧
    (calculateMetrics ⟨"0", "1500000", "12.5", "120000"⟩).roi = none ∧
    (calculateMetrics ⟨"0", "1500000", "12.5", "120000"⟩).paybackPeriod =
      some 0 ∧
    (calculateMetrics ⟨"0", "1500000", "12.5", "120000"⟩).rentFactor =
      some (120000 / 1500000 * 100) :=
  c5_zero_investment_amended ⟨"0", "1500000", "12.5", "120000"⟩
    1500000 (25 / 2) 120000
    parseFloat_zero parseFloat_1500000 parseFloat_12_5 parseFloat_120000
    (by norm_num) (by norm_num) (by norm_num)

/-- C8 counterexample: with `investmentCost = "-500000"` and the other inputs
valid and positive, all four fields parse to finite numbers, yet the payback
period is returned present with the negative value `-500000 / 187500 = -8/3`,
contradicting the claim that no derived metric is ever present with a
negative value. -/
theorem c8_negative_payback_counterexample :
    (calculateMetrics ⟨"-500000", "1500000", "12.5", "120000"⟩).paybackPeriod =
      some (-8 / 3) ∧
    (-8 / 3 : ℚ) < 0 := by
  norm_num [calculateMetrics, parseFloat_neg_500000, parseFloat_1500000,
    parseFloat_12_5, parseFloat_120000]

/-- C8 amended: a nonpositive `investmentCost` makes the metrics that divide
by it (`salesToInvestmentRatio` and `roi`) absent, a nonpositive
`annualNetSales` makes `rentFactor` absent, and a nonpositive projected
annual EBITDA makes `paybackPeriod` absent; conversely every present metric
has a strictly positive guarded denominator, so no division by zero through a
guarded denominator ever occurs.  (A metric can still be present with a
negative value through a negative numerator, as the counterexample shows.) -/
theorem c8_guarded_denominators (r : RawInputs) (tic pans ebr arc : ℚ)
    (h1 : parseFloat r.investmentCost = some tic)
    (h2 : parseFloat r.annualNetSales = some pans)
    (h3 : parseFloat r.ebitdaPercentage = some ebr)
    (h4 : parseFloat r.annualRentCam = some arc) :
    (tic ≤ 0 → (calculateMetrics r).salesToInvestmentRatio = none ∧
      (calculateMetrics r).roi = none) ∧
    (pans ≤ 0 → (calculateMetrics r).rentFactor = none) ∧
    (pans * (ebr / 100) ≤ 0 → (calculateMetrics r).paybackPeriod = none) ∧
    ((calculateMetrics r).salesToInvestmentRatio.isSome = true → 0 < tic) ∧
    ((calculateMetrics r).roi.isSome = true → 0 < tic) ∧
    ((calculateMetrics r).paybackPeriod.isSome = true →
      0 < pans * (ebr / 100)) ∧
    ((calculateMetrics r).rentFactor.isSome = true → 0 < pans) := by
  have hm : calculateMetrics r =
      { salesToInvestmentRatio := if tic > 0 then some (pans / tic) else none
        paybackPeriod := if pans * (ebr / 100) > 0 then
          some (tic / (pans * (ebr / 100))) else none
        roi := if tic > 0 then some (pans * (ebr / 100) / tic * 100) else none
        rentFactor := if pans > 0 then some (arc / pans * 100) else none } := by
    simp [calculateMetrics, h1, h2, h3, h4]
  rw [hm]
  by_cases ht : (0 : ℚ) < tic <;> by_cases hp : (0 : ℚ) < pans <;>
    by_cases hq : (0 : ℚ) < pans * (ebr / 100) <;>
      simp [ht, hp, hq]

/-- Witness for the amended C8 at a concrete input: a negative investment
cost with the worked example's other inputs leaves `salesToInvestmentRatio`
and `roi` absent. -/
theorem c8_guarded_denominators_witness :
    (calculateMetrics
        ⟨"-500000", "1500000", "12.5", "120000"⟩).salesToInvestmentRatio =
      none ∧
    (calculateMetrics ⟨"-500000", "1500000", "12.5", "120000"⟩).roi = none :=
  (c8_guarded_denominators ⟨"-500000", "1500000", "12.5", "120000"⟩
    (-500000) 1500000 (25 / 2) 120000
    parseFloat_neg_500000 parseFloat_1500000 parseFloat_12_5
    parseFloat_120000).1 (by norm_num)

/-- C9 (implicit): for every `RawInputs` whose four fields all parse to
strictly positive finite numbers, all four derived metrics are present —
every `null` branch of `calculateMetrics` is unreachable under this
positivity precondition. -/
theorem c9_positive_inputs_all_present (r : RawInputs) (tic pans ebr arc : ℚ)
    (h1 : parseFloat r.investmentCost = some tic)
    (h2 : parseFloat r.annualNetSales = some pans)
    (h3 : parseFloat r.ebitdaPercentage = some ebr)
    (h4 : parseFloat r.annualRentCam = some arc)
    (htic : 0 < tic) (hpans : 0 < pans) (hebr : 0 < ebr) (_harc : 0 < arc) :
    (calculateMetrics r).salesToInvestmentRatio.isSome = true ∧
    (calculateMetrics r).paybackPeriod.isSome = true ∧
    (calculateMetrics r).roi.isSome = true ∧
    (calculateMetrics r).rentFactor.isSome = true := by
  have hpae : 0 < pans * (ebr / 100) := by positivity
  simp [calculateMetrics, h1, h2, h3, h4, htic, hpans, hpae]

/-- Witness for C9 at the worked example. -/
theorem c9_positive_inputs_all_present_witness :
    (calculateMetrics ⟨"500000", "1500000", "12.5", "120000"⟩).salesToInvestmentRatio.isSome =
      true ∧
    (calculateMetrics ⟨"500000", "1500000", "12.5", "120000"⟩).paybackPeriod.isSome =
      true ∧
    (calculateMetrics ⟨"500000", "1500000", "12.5", "120000"⟩).roi.isSome =
      true ∧
    (calculateMetrics ⟨"500000", "1500000", "12.5", "120000"⟩).rentFactor.isSome =
      true :=
  c9_positive_inputs_all_present ⟨"500000", "1500000", "12.5", "120000"⟩
    500000 1500000 (25 / 2) 120000
    parseFloat_500000 parseFloat_1500000 parseFloat_12_5 parseFloat_120000
    (by norm_num) (by norm_num) (by norm_num) (by norm_num)

/-- C10 (implicit): whenever `paybackPeriod` and `roi` are both present, they
satisfy the exact algebraic relation `paybackPeriod * roi = 100` in rational
arithmetic: the payback period is `tic / pae` and the ROI is
`(pae / tic) * 100`, and both guards force `tic` and `pae` to be nonzero. -/
theorem c10_payback_roi_product (r : RawInputs) (p v : ℚ)
    (hp : (calculateMetrics r).paybackPeriod = some p)
    (hv : (calculateMetrics r).roi = some v) :
    p * v = 100 := by
  rcases hA : parseFloat r.investmentCost with _ | tic <;>
    rcases hB : parseFloat r.annualNetSales with _ | pans <;>
      rcases hC : parseFloat r.ebitdaPercentage with _ | ebr <;>
        rcases hD : parseFloat r.annualRentCam with _ | arc <;>
          simp only [calculateMetrics, hA, hB, hC, hD,
            Option.map_some'] at hp hv
  all_goals try exact Option.noConfusion hp
  by_cases hq : pans * (ebr / 100) > 0
  · by_cases ht : tic > 0
    · rw [if_pos hq] at hp
      rw [if_pos ht] at hv
      have hq' : pans * (ebr / 100) ≠ 0 := ne_of_gt hq
      have ht' : tic ≠ 0 := ne_of_gt ht
      have hpe : pans * ebr ≠ 0 := by
        intro h
        apply hq'
        rw [← mul_div_assoc, h]
        norm_num
      have hpn : pans ≠ 0 := left_ne_zero_of_mul hpe
      have hen : ebr ≠ 0 := right_ne_zero_of_mul hpe
      obtain rfl : tic / (pans * (ebr / 100)) = p := Option.some.inj hp
      obtain rfl : pans * (ebr / 100) / tic * 100 = v := Option.some.inj hv
      field_simp
      ring
    · rw [if_neg ht] at hv
      exact absurd hv (by simp)
  · rw [if_neg hq] at hp
    exact absurd hp (by simp)

/-- Witness for C10 at the worked example: payback `8/3` times ROI `75/2` is
100. -/
theorem c10_payback_roi_product_witness :
    (8 / 3 : ℚ) * (75 / 2) = 100 :=
  c10_payback_roi_product ⟨"500000", "1500000", "12.5", "120000"⟩
    (8 / 3) (75 / 2)
    (by norm_num [calculateMetrics, parseFloat_500000, parseFloat_1500000,
      parseFloat_12_5, parseFloat_120000])
    (by norm_num [calculateMetrics, parseFloat_500000, parseFloat_1500000,
      parseFloat_12_5, parseFloat_120000])

/-- C7: for every metric kind and every benchmark definition, the classifier
applied to an absent metric value returns ("N/A", unknown = gray), independent
of the kind and benchmark arguments; this holds for both versions of the
classifier in the repository. -/
theorem c7_absent_value_is_na (b : Benchmark) (type : String) :
    getBenchmarkStatus none b type = { text := "N/A", color := "text-gray-500" } ∧
    getBenchmarkStatusPart000 none b type =
      { text := "N/A", color := "text-gray-500" } :=
  ⟨rfl, rfl⟩
